import Mathlib

/-!
Verification development for the Fish Folly client/server replication layer
(`src/game/src/net.rs`, `server.rs`, `client.rs`, `level.rs`, `player.rs`,
`menu.rs`), shallowly embedded in Lean.

Conventions of the embedding:
* `f32` values (timers, positions) are modelled as `ℚ`; `f32` comparisons in
  the source are ordinary orderings on these (no NaN is produced by the code
  paths modelled here).
* Engine handles, `Uuid` instance ids and byte values are modelled as `ℕ`.
* Rust hash maps (`FxHashMap`) are modelled as association lists; the only
  map operations the modelled code performs (`get`, `entry().or_insert`,
  `iter().min_by_key` over values, `values()`) are order-insensitive or are
  determinised by insertion order in the model.
* Fallible Rust code returning `GameResult` is modelled in `Except GameError`;
  a Rust panic (out-of-bounds slice, `unwrap`) is modelled by an explicit
  `panic` constructor so that the theorems can speak about it.
-/

/-- Three-component vector (`Vector3<f32>`), coordinates modelled as `ℚ`. -/
structure Vec3 where
  x : ℚ
  y : ℚ
  z : ℚ
deriving DecidableEq, Repr

/-- Unit quaternion (`UnitQuaternion<f32>`), components modelled as `ℚ`. -/
structure Quat where
  i : ℚ
  j : ℚ
  k : ℚ
  w : ℚ
deriving DecidableEq, Repr

/-- Model of `UnitQuaternion::default()`: the identity rotation. -/
def Quat.identity : Quat := ⟨0, 0, 0, 1⟩

/-- Model of `Vector3::default()`: the zero vector. -/
def Vec3.zero : Vec3 := ⟨0, 0, 0⟩

/-! Transport framing: `NetStream::next_message` (src/game/src/net.rs:133-161)

The receive buffer is a `Vec<u8>`, modelled as `List ℕ` of byte values.
`next_message` is generic over the message type through `M::try_create`
(a `bincode` deserializer), modelled as a function parameter
`tryCreate : List ℕ → Option M` (`Ok` ↦ `some`, `Err` ↦ `none`; the `Err`
case is logged in the source, which the model drops).

The source reads the 4-byte little-endian length header and then evaluates
`&self.buffer[4..end]` with `end = 4 + length` WITHOUT first checking
`end <= self.buffer.len()`; when the body is not fully buffered this slice
indexing panics. The model makes that outcome explicit with `panic`. -/

/-- Outcome of one `next_message` call: either a Rust panic (out-of-range
slice index), or a result (`Option` message as in the source) together with
the buffer contents left behind after `self.buffer.drain(..end)`. -/
inductive NextMessageResult (M : Type) where
  | panic
  | result (msg : Option M) (buffer : List ℕ)
deriving DecidableEq, Repr

/-- Model of `NetStream::next_message` (net.rs:133-161). `b0 :: b1 :: b2 :: b3 :: rest`
is the receive buffer with at least 4 bytes: the header decodes as
`u32::from_le_bytes([b0,b1,b2,b3])`, the body is the next `length` bytes of
`rest`. A buffer of fewer than 4 bytes returns `None` (source line 134-136)
leaving the buffer untouched. `&self.buffer[4..4+length]` panics when
`rest.length < length`; otherwise the message is parsed from the body and
`self.buffer.drain(..4+length)` removes header and body from the front in
both the parse-success and parse-failure case. -/
def nextMessage {M : Type} (tryCreate : List ℕ → Option M) :
    List ℕ → NextMessageResult M
  | b0 :: b1 :: b2 :: b3 :: rest =>
    let length := b0 + 256 * b1 + 65536 * b2 + 16777216 * b3
    if rest.length < length then
      NextMessageResult.panic
    else
      NextMessageResult.result (tryCreate (rest.take length)) (rest.drop length)
  | buffer => NextMessageResult.result none buffer

/-! Leaderboard (src/game/src/level.rs:12-100) -/

/-- Model of `LeaderBoardEntry` (level.rs:12-18). `actor` is the `Handle<Node>`. -/
structure LeaderBoardEntry where
  actor : ℕ
  finished : Bool
  real_time_position : ℕ
  finished_position : ℕ
deriving DecidableEq, Repr

/-- Model of `LeaderBoardEntry` with `..Default::default()`: all fields zero/false. -/
def LeaderBoardEntry.mkDefault (actor : ℕ) : LeaderBoardEntry :=
  { actor := actor, finished := false, real_time_position := 0,
    finished_position := 0 }

/-- Model of `Leaderboard` (level.rs:24-31). `entries` is the `FxHashMap` as an
association list keyed by actor handle; `events` accumulates the
`LeaderBoardEvent::Finished { actor, place }` values pushed through the
`sender` channel (modelled as always present). -/
structure Leaderboard where
  entries : List (ℕ × LeaderBoardEntry)
  events : List (ℕ × ℕ)
deriving DecidableEq, Repr

/-- Model of `Leaderboard::default()`: empty map, no events sent yet. -/
def Leaderboard.empty : Leaderboard := ⟨[], []⟩

/-- Model of `Leaderboard::is_finished` (level.rs:34-39):
`entries.get(&actor).map(|e| e.finished).unwrap_or_default()`. -/
def Leaderboard.is_finished (lb : Leaderboard) (actor : ℕ) : Bool :=
  ((lb.entries.lookup actor).map (fun e => e.finished)).getD false

/-- Model of `self.entries.iter().min_by_key(|(_, v)| v.finished_position)
      .map(|e| e.1.finished_position).unwrap_or_default()`
(level.rs:42-47): the minimum `finished_position` among all current entries,
0 when the map is empty. Only the minimum value matters, so the hash map's
iteration order is irrelevant. -/
def Leaderboard.prevPosition (lb : Leaderboard) : ℕ :=
  match lb.entries.map (fun e => e.2.finished_position) with
  | [] => 0
  | x :: xs => xs.foldl Nat.min x

/-- Model of `Leaderboard::finish` (level.rs:41-65). Computes `prev_position` by
`min_by_key` over `finished_position` BEFORE the `entry().or_insert_with`
lookup, inserts a default entry for an unknown actor, and then, only if the
entry is not already finished, stamps `finished_position = prev_position + 1`,
sets `finished` and sends a `Finished { actor, place }` event. -/
def Leaderboard.finish (lb : Leaderboard) (actor : ℕ) : Leaderboard :=
  let prev_position := lb.prevPosition
  match lb.entries.lookup actor with
  | some entry =>
    if entry.finished then
      lb
    else
      let stamp := fun (e : LeaderBoardEntry) =>
        { e with finished := true, finished_position := prev_position + 1 }
      { entries := lb.entries.map (fun p =>
          if p.1 = actor then (p.1, stamp p.2) else p),
        events := lb.events ++ [(actor, prev_position + 1)] }
  | none =>
    let entry := LeaderBoardEntry.mkDefault actor
    let stamped :=
      { entry with finished := true, finished_position := prev_position + 1 }
    { entries := lb.entries ++ [(actor, stamped)],
      events := lb.events ++ [(actor, prev_position + 1)] }

/-! Level match timer (src/game/src/level.rs:102-153) -/

/-- The match-timer part of `Level` (level.rs:102-111). The other fields
(actor/target handle sets, leaderboard) do not interact with the timer. -/
structure Level where
  match_timer : ℚ
deriving DecidableEq, Repr

/-- Model of `Level::default()` (level.rs:113-125): `match_timer: 15.0 * 60.0`. -/
def Level.mkDefault : Level := { match_timer := 15 * 60 }

/-- The timer update in `Level::update` (level.rs:128-138):
`self.match_timer = (self.match_timer - ctx.dt).max(0.0)`, executed only when
`ctx.scenes.try_get(self.scene)` succeeds (`sceneValid`); the call also
recomputes the leaderboard's real-time ranking, which leaves `match_timer`
untouched. -/
def Level.update (l : Level) (sceneValid : Bool) (dt : ℚ) : Level :=
  if sceneValid then { l with match_timer := max (l.match_timer - dt) 0 }
  else l

/-- Model of `Level::sudden_death` (level.rs:140-144). -/
def Level.sudden_death (l : Level) : Level :=
  if l.match_timer > 60 then { l with match_timer := 60 } else l

/-- Model of `Level::is_time_critical` (level.rs:146-148). -/
def Level.is_time_critical (l : Level) : Bool := l.match_timer ≤ 60

/-- Model of `Level::is_match_ended` (level.rs:150-152). -/
def Level.is_match_ended (l : Level) : Bool := l.match_timer ≤ 0

/-- The `LeaderBoardEvent` handling in `Menu::update` (menu.rs:663-679):
for each received event, `LeaderBoardEvent::Finished { .. }` calls
`level.sudden_death()` (the sound playback on that branch does not touch
the level). The event payload is `(actor, place)`. -/
def Menu.onFinishedEvent (l : Level) (_event : ℕ × ℕ) : Level :=
  l.sudden_death

/-! State synchronizer: `Server::update` (src/game/src/server.rs:95-131)

`NodeState` (in the revision `server.rs` is written against) carries the
entity's stable instance id together with its local position and rotation.
The server keeps `previous_node_states: FxHashMap<Handle<Node>, NodeState>`
and, for every node each tick, runs

```rust
let prev_state = self.previous_node_states.entry(handle)
    .or_insert(current_state.clone());
if *prev_state != current_state {
    tick_data.nodes.push(current_state.clone());
    *prev_state = current_state;
}
```

The model follows one entity's cache cell through its per-tick snapshots
(`SoundState` at server.rs:113-128 uses the identical diff-and-cache shape). -/

/-- Model of `NodeState` as used by `server.rs`/`client.rs`: stable instance id plus
local transform. -/
structure NodeState where
  node : ℕ
  position : Vec3
  rotation : Quat
deriving DecidableEq, Repr

/-- One tick of the per-entity delta compression (server.rs:102-111): from
the cache cell (`none` = entity not seen before; `entry().or_insert`
initialises it to the current state) and the current snapshot, produce the
updated cache cell and the delta pushed into `tick_data.nodes` this tick
(`none` = nothing emitted). -/
def syncStep (cache : Option NodeState) (current : NodeState) :
    Option NodeState × Option NodeState :=
  match cache with
  | none => (some current, none)
  | some prev =>
    if prev ≠ current then (some current, some current)
    else (some prev, none)

/-- Running the synchronizer over an entity's successive per-tick snapshots:
returns the final cache cell and, for each tick in order, the delta emitted
at that tick (`none` when the entity was unchanged). -/
def syncRun : Option NodeState → List NodeState →
    Option NodeState × List (Option NodeState)
  | cache, [] => (cache, [])
  | cache, s :: rest =>
    let step := syncStep cache s
    let tail := syncRun step.1 rest
    (tail.1, step.2 :: tail.2)

/-- Specification-side description of the emitted deltas: given the previous
snapshot, a delta is emitted at a tick iff the tick's snapshot differs from
its predecessor, and the delta is the full new snapshot. -/
def deltaTicks : NodeState → List NodeState → List (Option NodeState)
  | _, [] => []
  | prev, s :: rest =>
    (if s = prev then none else some s) :: deltaTicks s rest

/-- The receiver: starting from a known state, apply each emitted delta in
order (a delta carries the full new `NodeState`, as in
`Client::read_messages`'s `UpdateTick` handling). -/
def applyDeltas (start : NodeState) (deltas : List (Option NodeState)) :
    NodeState :=
  deltas.foldl (fun st d => d.getD st) start

/-- Specification-side final snapshot of a trajectory: the last element of
`prev :: rest`, i.e. the state `sn` the entity truly holds after the last
tick. -/
def lastState (prev : NodeState) : List NodeState → NodeState
  | [] => prev
  | s :: rest => lastState s rest

/-! Player/avatar spawning: `Server::on_scene_loaded`
(src/game/src/server.rs:161-228) -/

/-- Model of `ActorKind` (src/game/src/actor.rs). -/
inductive ActorKind where
  | Bot
  | Player
  | RemotePlayer
deriving DecidableEq, Repr

/-- The local-handle-to-stable-id map produced by
`ModelResource::generate_ids()` (engine side), modelled concretely as a list
of pairs; the model only ever compares these maps for equality. -/
structure IdMap where
  pairs : List (ℕ × ℕ)
deriving DecidableEq, Repr

/-- Model of `InstanceDescriptor` (net module of the `server.rs` revision). -/
structure InstanceDescriptor where
  path : String
  position : Vec3
  rotation : Quat
  velocity : Vec3
  ids : IdMap
deriving DecidableEq, Repr

/-- Model of `PlayerDescriptor`: an `InstanceDescriptor` plus the actor role tag.
(`instance` is a Lean keyword, hence the field name `inst`.) -/
structure PlayerDescriptor where
  inst : InstanceDescriptor
  kind : ActorKind
deriving DecidableEq, Repr

/-- Model of `Server::on_scene_loaded` (server.rs:161-228), modelled as the list of
`(connection_num, descriptor)` pairs sent, in send order. `numConnections`
is `self.connections.len()` (= `players_to_spawn`); `startPoints` the global
positions of the `StartPoint` nodes in scene order; `genPlayerIds i` /
`genBotIds i` model the result of the i-th `generate_ids()` call on the
player/bot prefab — called ONCE per spawned avatar, before the inner
per-connection loop, exactly as in the source. For avatar `player_num` the
descriptor sent to `connection_num` is tagged `RemotePlayer` when
`player_num != connection_num` and `Player` otherwise; bots (spawned for the
remaining start points when `add_bots` is set) are tagged `Bot` for every
connection. -/
def Server.on_scene_loaded (numConnections : ℕ) (startPoints : List Vec3)
    (addBots : Bool) (genPlayerIds genBotIds : ℕ → IdMap) :
    List (ℕ × PlayerDescriptor) :=
  ((List.range numConnections).map (fun player_num =>
    let ids := genPlayerIds player_num
    match startPoints[player_num]? with
    | none => []
    | some position =>
      (List.range numConnections).map (fun connection_num =>
        (connection_num,
         { inst := { path := "data/models/player.rgs", position := position,
                     rotation := Quat.identity, velocity := Vec3.zero,
                     ids := ids },
           kind := if player_num ≠ connection_num then ActorKind.RemotePlayer
                   else ActorKind.Player })))).flatten ++
  (if addBots then
    ((List.range' numConnections (startPoints.length - numConnections)).map
      (fun i =>
        let ids := genBotIds i
        match startPoints[i]? with
        | none => []
        | some position =>
          (List.range numConnections).map (fun connection_num =>
            (connection_num,
             { inst := { path := "data/models/bot.rgs", position := position,
                         rotation := Quat.identity, velocity := Vec3.zero,
                         ids := ids },
               kind := ActorKind.Bot })))).flatten
   else [])

/-! Client reconciliation: `Client::read_messages` / `Client::update`
(src/game/src/client.rs:104-182)

`read_messages` is a `while let Some(msg) = pop_message()` loop whose body
uses the `?` operator on fallible scene lookups; the first failure aborts the
loop and returns the error from `read_messages` (propagated further by `?`
in `Game::update`, lib.rs:183). The model processes the popped message list
with a monadic fold in `Except GameError`. -/

/-- The error values that `?` can propagate out of `Client::read_messages`
(`GameResult` failures), plus `panicUnwrap` modelling the `.unwrap()` panic
on the `EndMatch` path (client.rs:142) when a leaderboard actor has no
`Actor` script component in the scene. -/
inductive GameError where
  | sceneNotFound
  | nodeNotFound (id : ℕ)
  | panicUnwrap
deriving DecidableEq, Repr

/-- A node's local transform. -/
structure Transform where
  position : Vec3
  rotation : Quat
deriving DecidableEq, Repr

/-- The slice of the loaded scene the client reconciliation reads/writes:
`nodes` maps stable instance ids to local transforms
(`graph.node_by_id_mut`); `actorNames` maps an actor's root handle (the
`LeaderBoardEntry.actor` field) to its `Actor` script component's `name`
(`try_get_script_component_of::<Actor>`). -/
structure SceneM where
  nodes : List (ℕ × Transform)
  actorNames : List (ℕ × String)
deriving DecidableEq, Repr

/-- Model of `FinishedPlayer` (client.rs:19-22). -/
structure FinishedPlayer where
  name : String
  place : ℕ
deriving DecidableEq, Repr

/-- Model of `WinContext` (client.rs:24-27). -/
structure WinContext where
  timer : ℚ
  players : List FinishedPlayer
deriving DecidableEq, Repr

/-- Model of `ServerMessage` (the revision `client.rs`/`server.rs` are written
against). `AddPlayers`/`Instantiate` carry descriptor lists; `LeaderBoard`
carries the full entry snapshot. -/
inductive ServerMessageM where
  | LoadLevel (path : String)
  | UpdateTick (nodes : List NodeState)
  | AddPlayers (players : List PlayerDescriptor)
  | Instantiate (instances : List InstanceDescriptor)
  | EndMatch
  | LeaderBoard (players : List LeaderBoardEntry)
deriving DecidableEq, Repr

/-- The state `Client::read_messages` reads and mutates. `scene` is
`ctx.scenes.try_get_mut(level.scene)` (`none` = no scene loaded / handle is
`Handle::NONE`); `leaderboard` is `level.leaderboard.entries`; `winContext`
is `self.win_context`; `menuPresent`/`menuShown` model the optional `Menu`
and its visibility; `loadRequests` accumulates
`ctx.async_scene_loader.request(path)` calls and `spawnTasks` counts the
plugin tasks spawned by `instantiate_objects`/`add_players` (their bodies
run later, outside `read_messages`). -/
structure ClientCtx where
  scene : Option SceneM
  leaderboard : List (ℕ × LeaderBoardEntry)
  winContext : Option WinContext
  menuPresent : Bool
  menuShown : Bool
  loadRequests : List String
  spawnTasks : ℕ
deriving DecidableEq, Repr

/-- Applying one `NodeState` entry of an `UpdateTick` (client.rs:117-126):
`scene.graph.node_by_id_mut(entry.node)?` errors when the stable id is
absent; otherwise the node's position/rotation are set to the entry's values
(the source skips writes that would not change the value, which leaves the
resulting transform identical). -/
def applyNodeEntry (s : SceneM) (entry : NodeState) :
    Except GameError SceneM :=
  match s.nodes.lookup entry.node with
  | none => Except.error (GameError.nodeNotFound entry.node)
  | some _ =>
    Except.ok { s with nodes := s.nodes.map (fun p =>
        if p.1 = entry.node then
          (p.1, { position := entry.position, rotation := entry.rotation })
        else p) }

/-- Building the `FinishedPlayer` list on the `EndMatch` path
(client.rs:134-149): for every leaderboard entry, look up its actor's
`Actor` component (`.unwrap()` — a missing component panics, modelled as
`panicUnwrap`) and pair the actor's name with the entry's
`finished_position`. -/
def collectFinishedPlayers (s : SceneM)
    (entries : List (ℕ × LeaderBoardEntry)) :
    Except GameError (List FinishedPlayer) :=
  entries.mapM (fun e =>
    match s.actorNames.lookup e.2.actor with
    | none => Except.error GameError.panicUnwrap
    | some name =>
      Except.ok { name := name, place := e.2.finished_position })

/-- Processing one popped `ServerMessage` in `Client::read_messages`
(client.rs:110-170). The `EndMatch` arm sorts the collected players by
`place` (`sort_by_key`, a stable sort — modelled by `insertionSort`, also
stable), installs a `WinContext` with a 10-second timer, makes the menu and
main menu visible when a menu exists, and removes the scene while resetting
`level.scene` to `Handle::NONE` (modelled together as `scene := none`). -/
def Client.processMessage (ctx : ClientCtx) (msg : ServerMessageM) :
    Except GameError ClientCtx :=
  match msg with
  | ServerMessageM.LoadLevel path =>
    Except.ok { ctx with loadRequests := ctx.loadRequests ++ [path] }
  | ServerMessageM.UpdateTick nodes =>
    match ctx.scene with
    | none => Except.error GameError.sceneNotFound
    | some s =>
      (nodes.foldlM applyNodeEntry s).map (fun s2 =>
        { ctx with scene := some s2 })
  | ServerMessageM.AddPlayers players =>
    Except.ok { ctx with spawnTasks := ctx.spawnTasks + players.length }
  | ServerMessageM.Instantiate instances =>
    Except.ok { ctx with spawnTasks := ctx.spawnTasks + instances.length }
  | ServerMessageM.EndMatch =>
    match ctx.scene with
    | none => Except.error GameError.sceneNotFound
    | some s =>
      (collectFinishedPlayers s ctx.leaderboard).map (fun players =>
        let sorted := players.insertionSort (fun a b => a.place ≤ b.place)
        { ctx with
          winContext := some { timer := 10, players := sorted },
          menuShown := if ctx.menuPresent then true else ctx.menuShown,
          scene := none })
  | ServerMessageM.LeaderBoard players =>
    Except.ok { ctx with leaderboard := players.map (fun e => (e.actor, e)) }

/-- Model of `Client::read_messages` (client.rs:104-172): process the popped messages
in FIFO order; the first `?`-propagated failure aborts the remaining
messages. -/
def Client.read_messages (ctx : ClientCtx) (msgs : List ServerMessageM) :
    Except GameError ClientCtx :=
  msgs.foldlM Client.processMessage ctx

/-- Model of `Client::update` (client.rs:174-182): decrement the win-context timer by
`dt`; when it reaches or passes zero, `take()` clears the context. -/
def Client.update (winContext : Option WinContext) (dt : ℚ) :
    Option WinContext :=
  match winContext with
  | none => none
  | some wc =>
    let timer := wc.timer - dt
    if timer ≤ 0 then none else some { wc with timer := timer }

/-! Player input: `Player::on_os_event` (src/game/src/player.rs:197-254)

The handler returns early for remote players or while the menu is active;
otherwise, when `input_controller.on_os_event` reports that the input state
changed, it sends `ClientMessage::Input` only if the leaderboard does not
mark this player's node as finished and a client connection exists. (The
left-click branch in between broadcasts a server-side `Instantiate`, never
an `Input` message.) -/

/-- Decision logic of `Player::on_os_event` for sending
`ClientMessage::Input`: `kind` is `self.actor.kind`, `menuActive` the
`menu.is_active` check, `inputChanged` the boolean returned by
`InputController::on_os_event`, `hasClient` whether `game.client` is `Some`,
and `lb`/`handle` feed `game.level.leaderboard.is_finished(ctx.handle)`.
Returns whether an `Input` message is sent for this OS event. -/
def Player.sendsInput (kind : ActorKind) (menuActive : Bool)
    (inputChanged : Bool) (hasClient : Bool) (lb : Leaderboard)
    (handle : ℕ) : Bool :=
  if kind = ActorKind.RemotePlayer || menuActive then false
  else if inputChanged then
    if !(lb.is_finished handle) then
      if hasClient then true else false
    else false
  else false

/-! Concrete fixtures used to instantiate theorems on closed inputs. -/

/-- Fixture: a scene that contains only the node with stable id 7. -/
def sceneOnly7 : SceneM :=
  { nodes := [(7, { position := Vec3.zero, rotation := Quat.identity })],
    actorNames := [] }

/-- Fixture: a client state whose loaded scene is `sceneOnly7`. -/
def ctxWithScene7 : ClientCtx :=
  { scene := some sceneOnly7, leaderboard := [], winContext := none,
    menuPresent := false, menuShown := false, loadRequests := [],
    spawnTasks := 0 }

/-- Fixture: a client state with no loaded scene. -/
def ctxNoScene : ClientCtx :=
  { scene := none, leaderboard := [], winContext := none,
    menuPresent := false, menuShown := false, loadRequests := [],
    spawnTasks := 0 }

/-- Fixture: an `UpdateTick` entry for the absent stable id 5. -/
def nodeState5 : NodeState :=
  { node := 5, position := Vec3.zero, rotation := Quat.identity }

/-- Fixture: a scene naming actors 1 ("alice") and 2 ("bob"). -/
def sceneAliceBob : SceneM :=
  { nodes := [], actorNames := [(1, "alice"), (2, "bob")] }

/-- Fixture: leaderboard entries — actor 1 finished in place 2, actor 2 in
place 1. -/
def lbAliceBob : List (ℕ × LeaderBoardEntry) :=
  [(1, ⟨1, true, 0, 2⟩), (2, ⟨2, true, 0, 1⟩)]

/-- Fixture: a client state (menu present, hidden) holding `sceneAliceBob`
and `lbAliceBob`. -/
def ctxEndMatch : ClientCtx :=
  { scene := some sceneAliceBob, leaderboard := lbAliceBob,
    winContext := none, menuPresent := true, menuShown := false,
    loadRequests := [], spawnTasks := 0 }

/-- Fixture: the finished players collected from `lbAliceBob` in
`sceneAliceBob`. -/
def playersAliceBob : List FinishedPlayer :=
  [⟨"alice", 2⟩, ⟨"bob", 1⟩]

/-! Theorems -/

/-- C1. The claim states that `NetStream::next_message` returns `None` and
leaves the buffer unchanged whenever the length header announces a body
longer than the buffered bytes, "never panics and never consumes bytes of an
incomplete frame". The code violates this: with at least 4 buffered bytes
but an incomplete body, `&self.buffer[4..4 + length]` (net.rs:146) indexes
past the end of the buffer and panics. First conjunct: the failing input —
header `[5,0,0,0]` announces a 5-byte body, only 2 body bytes are buffered,
and the call panics instead of returning `None`. Second conjunct: the
sub-4-byte part of the claim does hold — a 3-byte buffer yields `None` with
the buffer untouched. -/
theorem netstream_incomplete_frame_panics :
    nextMessage (M := Unit) (fun _ => some ()) [5, 0, 0, 0, 170, 187] =
      NextMessageResult.panic ∧
    nextMessage (M := Unit) (fun _ => some ()) [1, 2, 3] =
      NextMessageResult.result none [1, 2, 3] := by
  constructor
  · rfl
  · rfl

/-- C2. The claim states that finishing N distinct actors in sequence
assigns `finished_position` values `1..N`, each exactly once. The code
computes the "previous" place with `min_by_key` over `finished_position`
(level.rs:42-47), so the third `finish` call sees minimum 1 among `{1, 2}`
and assigns place 2 again: finishing actors 1, 2, 3 in sequence from an
empty leaderboard yields positions `[1, 2, 2]` (place 3 is never assigned,
place 2 twice) and the emitted `Finished` events carry the same duplicated
places. -/
theorem leaderboard_finish_duplicate_rank :
    ((((Leaderboard.empty.finish 1).finish 2).finish 3).entries.map
        (fun e => (e.1, e.2.finished_position)) = [(1, 1), (2, 2), (3, 2)]) ∧
    (((Leaderboard.empty.finish 1).finish 2).finish 3).events =
      [(1, 1), (2, 2), (3, 2)] := by
  constructor
  · rfl
  · rfl

/-- C5. For every starting timer value, `Level::sudden_death` sets
`match_timer` to `min(T, 60.0)` (so a timer above 60 becomes exactly 60 and
a timer at most 60 is unchanged), and the `Finished` leaderboard event
handler in `Menu::update` applies exactly this adjustment. -/
theorem sudden_death_clamps_to_min (l : Level) (ev : ℕ × ℕ) :
    (l.sudden_death).match_timer = min l.match_timer 60 ∧
    Menu.onFinishedEvent l ev = l.sudden_death := by
  refine ⟨?_, rfl⟩
  unfold Level.sudden_death
  rcases lt_or_le 60 l.match_timer with h | h
  · rw [if_pos h]
    exact (min_eq_right h.le).symm
  · rw [if_neg (not_lt.mpr h)]
    exact (min_eq_left h).symm

/-- C9. The input handler of `Player::on_os_event` sends
`ClientMessage::Input` only if the leaderboard does not mark the player's
node as finished, a client connection exists, and the input state actually
changed. -/
theorem player_input_only_when_unfinished (kind : ActorKind)
    (menuActive inputChanged hasClient : Bool) (lb : Leaderboard) (n : ℕ)
    (hsend : Player.sendsInput kind menuActive inputChanged hasClient lb n
      = true) :
    lb.is_finished n = false ∧ hasClient = true ∧ inputChanged = true := by
  cases hmenu : menuActive <;> cases hin : inputChanged <;>
    cases hcl : hasClient <;> cases hfin : lb.is_finished n <;>
    cases kind <;> simp_all [Player.sendsInput]

/-- Witness for C9: with a `Player`-kind avatar, inactive menu, changed
input, an existing client connection and an empty leaderboard, the message
is sent and the conclusion holds. -/
theorem player_input_only_when_unfinished_witness :
    Player.sendsInput ActorKind.Player false true true Leaderboard.empty 0
      = true ∧
    (Leaderboard.empty.is_finished 0 = false ∧ true = true ∧ true = true) :=
  ⟨by decide,
   player_input_only_when_unfinished ActorKind.Player false true true
     Leaderboard.empty 0 (by decide)⟩

/-- C10. For `dt ≥ 0` and a nonnegative timer, a tick with a loaded scene
sets `match_timer` to `max(match_timer - dt, 0)`; the timer stays
nonnegative after every tick (with or without a loaded scene), and on the
post-tick state `Level::is_match_ended` holds exactly when the timer has
been driven to 0. -/
theorem match_timer_nonnegative (l : Level) (sv : Bool) (dt : ℚ)
    (hdt : 0 ≤ dt) (hl : 0 ≤ l.match_timer) :
    (Level.update l true dt).match_timer = max (l.match_timer - dt) 0 ∧
    0 ≤ (Level.update l sv dt).match_timer ∧
    ((Level.update l sv dt).is_match_ended = true ↔
      (Level.update l sv dt).match_timer = 0) := by
  have hpos : 0 ≤ (Level.update l sv dt).match_timer := by
    cases sv with
    | false => simpa [Level.update] using hl
    | true => simp [Level.update]
  refine ⟨rfl, hpos, ?_⟩
  unfold Level.is_match_ended
  constructor
  · intro h
    exact le_antisymm (by simpa using h) hpos
  · intro h
    simp [h]

/-- Witness for C10: the default level (timer 900 seconds) ticked by one
second with a loaded scene. -/
theorem match_timer_nonnegative_witness :
    (0 : ℚ) ≤ 1 ∧ (0 : ℚ) ≤ Level.mkDefault.match_timer ∧
    ((Level.update Level.mkDefault true 1).match_timer =
        max (Level.mkDefault.match_timer - 1) 0 ∧
      0 ≤ (Level.update Level.mkDefault true 1).match_timer ∧
      ((Level.update Level.mkDefault true 1).is_match_ended = true ↔
        (Level.update Level.mkDefault true 1).match_timer = 0)) :=
  ⟨by norm_num, by norm_num [Level.mkDefault],
   match_timer_nonnegative Level.mkDefault true 1 (by norm_num)
     (by norm_num [Level.mkDefault])⟩

/-- Helper for C3: from a populated cache cell, the synchronizer's final
cache holds the last snapshot and the emitted deltas are exactly the ticks
whose snapshot differs from its predecessor. -/
theorem syncRun_from_cache (cur : NodeState) (rest : List NodeState) :
    syncRun (some cur) rest =
      (some (lastState cur rest), deltaTicks cur rest) := by
  induction rest generalizing cur with
  | nil => rfl
  | cons s rest ih =>
    by_cases h : s = cur
    · simp [syncRun, syncStep, deltaTicks, lastState, ih, h]
    · simp [syncRun, syncStep, deltaTicks, lastState, ih, h, Ne.symm h]

/-- Helper for C3: a receiver that applies every delta described by
`deltaTicks` ends at the last snapshot. -/
theorem applyDeltas_deltaTicks (cur : NodeState) (rest : List NodeState) :
    applyDeltas cur (deltaTicks cur rest) = lastState cur rest := by
  induction rest generalizing cur with
  | nil => rfl
  | cons s rest ih =>
    rw [deltaTicks, lastState]
    by_cases h : s = cur
    · rw [if_pos h, ← h]
      exact ih s
    · rw [if_neg h]
      exact ih s

/-- C3. For one tracked entity with per-tick snapshots `s0 :: rest` and an
initially empty cache cell, the synchronizer of `Server::update` emits no
delta on the first-seen tick and afterwards emits a delta at a tick iff the
snapshot differs from the previous tick's (this is `deltaTicks`, which puts
`none` at a tick exactly when the snapshot equals its predecessor); the
final cache cell equals the last snapshot; and a receiver starting at `s0`
that applies every emitted delta in order ends at the last snapshot.
Because the statement is universally quantified over `rest`, instantiating
it with every prefix of the snapshot sequence gives the cache invariant
after every intermediate tick as well. -/
theorem server_delta_sync_correct (s0 : NodeState) (rest : List NodeState) :
    syncRun none (s0 :: rest) =
      (some (lastState s0 rest), none :: deltaTicks s0 rest) ∧
    applyDeltas s0 (syncRun none (s0 :: rest)).2 = lastState s0 rest := by
  have h1 : syncRun none (s0 :: rest) =
      ((syncRun (some s0) rest).1, none :: (syncRun (some s0) rest).2) := rfl
  constructor
  · rw [h1, syncRun_from_cache]
  · rw [h1, syncRun_from_cache]
    rw [show applyDeltas s0
        ((some (lastState s0 rest), none :: deltaTicks s0 rest).2) =
      applyDeltas s0 (deltaTicks s0 rest) from rfl]
    exact applyDeltas_deltaTicks s0 rest

/-- C4 counterexample. The claim states that an `UpdateTick` entry whose
stable id is absent from the loaded scene is silently ignored and
`Client::read_messages` returns successfully. On the code,
`scene.graph.node_by_id_mut(entry.node)?` (client.rs:118) propagates the
lookup failure: with a loaded but empty scene, a tick for id 5 makes
`read_messages` return an error, not success. -/
theorem client_missing_entity_counterexample :
    Client.read_messages
      { scene := some { nodes := [], actorNames := [] }, leaderboard := [],
        winContext := none, menuPresent := false, menuShown := false,
        loadRequests := [], spawnTasks := 0 }
      [ServerMessageM.UpdateTick
        [{ node := 5, position := Vec3.zero, rotation := Quat.identity }]] =
      Except.error (GameError.nodeNotFound 5) := by
  rfl

/-- C4 as amended: when an `UpdateTick` entry refers to a stable id that is
not in the loaded scene, `Client::read_messages` returns an error
(`node_by_id_mut` failure propagated by `?`), aborting the remaining
entries and messages of this call; likewise, an `UpdateTick` received while
no scene is loaded makes the call return a scene-lookup error. The error is
handed to the caller as a `GameResult` (propagated further by `?` in
`Game::update`), not a panic. -/
theorem client_missing_entity_errors (c1 c2 : ClientCtx) (s : SceneM)
    (e : NodeState) (more nodes2 : List NodeState)
    (rest1 rest2 : List ServerMessageM)
    (hs : c1.scene = some s) (hmiss : s.nodes.lookup e.node = none)
    (hns : c2.scene = none) :
    Client.read_messages c1
        (ServerMessageM.UpdateTick (e :: more) :: rest1) =
      Except.error (GameError.nodeNotFound e.node) ∧
    Client.read_messages c2 (ServerMessageM.UpdateTick nodes2 :: rest2) =
      Except.error GameError.sceneNotFound := by
  constructor
  · have hap : applyNodeEntry s e =
        Except.error (GameError.nodeNotFound e.node) := by
      unfold applyNodeEntry
      rw [hmiss]
    have hpm : Client.processMessage c1
        (ServerMessageM.UpdateTick (e :: more)) =
        Except.error (GameError.nodeNotFound e.node) := by
      show (match c1.scene with
          | none => Except.error GameError.sceneNotFound
          | some s =>
            ((e :: more).foldlM applyNodeEntry s).map
              (fun (s2 : SceneM) => ({ c1 with scene := some s2 } :
                ClientCtx))) =
        Except.error (GameError.nodeNotFound e.node)
      rw [hs]
      show ((e :: more).foldlM applyNodeEntry s).map
          (fun (s2 : SceneM) => ({ c1 with scene := some s2 } :
            ClientCtx)) =
        Except.error (GameError.nodeNotFound e.node)
      rw [List.foldlM_cons, hap]
      rfl
    unfold Client.read_messages
    rw [List.foldlM_cons, hpm]
    rfl
  · have hpm : Client.processMessage c2 (ServerMessageM.UpdateTick nodes2) =
        Except.error GameError.sceneNotFound := by
      show (match c2.scene with
          | none => Except.error GameError.sceneNotFound
          | some s =>
            (nodes2.foldlM applyNodeEntry s).map
              (fun (s2 : SceneM) => ({ c2 with scene := some s2 } :
                ClientCtx))) =
        Except.error GameError.sceneNotFound
      rw [hns]
    unfold Client.read_messages
    rw [List.foldlM_cons, hpm]
    rfl

/-- Witness for C4's amended theorem: a scene containing only id 7 receives
a tick for id 5, and a client without a scene receives an empty tick. -/
theorem client_missing_entity_errors_witness :
    ctxWithScene7.scene = some sceneOnly7 ∧
    sceneOnly7.nodes.lookup nodeState5.node = none ∧
    ctxNoScene.scene = none ∧
    (Client.read_messages ctxWithScene7
        [ServerMessageM.UpdateTick [nodeState5]] =
      Except.error (GameError.nodeNotFound nodeState5.node) ∧
    Client.read_messages ctxNoScene [ServerMessageM.UpdateTick []] =
      Except.error GameError.sceneNotFound) :=
  ⟨rfl, rfl, rfl,
   client_missing_entity_errors ctxWithScene7 ctxNoScene sceneOnly7
     nodeState5 [] [] [] [] rfl rfl rfl⟩

/-- C7. In `Server::on_scene_loaded`, for every spawned avatar index `p`
with a start point and every connection index `c`, connection `c` is sent a
descriptor for spawn `p` whose role tag is `RemotePlayer` exactly when
`p ≠ c` (i.e. `Player` iff `p = c`) and whose embedded local-to-stable-id
map is `gP p` — the map generated once for spawn `p`, before the
per-connection loop, hence identical for every receiving connection. -/
theorem server_spawn_role_and_shared_ids (n : ℕ) (sp : List Vec3)
    (ab : Bool) (gP gB : ℕ → IdMap) (p c : ℕ) (pos : Vec3)
    (hp : p < n) (hc : c < n) (hsp : sp[p]? = some pos) :
    ((c, { inst := { path := "data/models/player.rgs", position := pos,
                     rotation := Quat.identity, velocity := Vec3.zero,
                     ids := gP p },
           kind := if p ≠ c then ActorKind.RemotePlayer
                   else ActorKind.Player }) : ℕ × PlayerDescriptor)
      ∈ Server.on_scene_loaded n sp ab gP gB := by
  unfold Server.on_scene_loaded
  apply List.mem_append_left
  rw [List.mem_flatten]
  refine ⟨(List.range n).map (fun connection_num =>
    (connection_num,
     { inst := { path := "data/models/player.rgs", position := pos,
                 rotation := Quat.identity, velocity := Vec3.zero,
                 ids := gP p },
       kind := if p ≠ connection_num then ActorKind.RemotePlayer
               else ActorKind.Player })), ?_, ?_⟩
  · rw [List.mem_map]
    refine ⟨p, List.mem_range.mpr hp, ?_⟩
    simp only [hsp]
  · exact List.mem_map_of_mem _ (List.mem_range.mpr hc)

/-- Witness for C7: two connections, two start points, no bots; connection 1
receives the spawn-0 descriptor tagged `RemotePlayer` carrying the map
generated for spawn 0. -/
theorem server_spawn_role_and_shared_ids_witness :
    (0 < 2) ∧ (1 < 2) ∧
    (([⟨0, 0, 0⟩, ⟨1, 0, 0⟩] : List Vec3)[0]? = some ⟨0, 0, 0⟩) ∧
    (((1, { inst := { path := "data/models/player.rgs",
                      position := ⟨0, 0, 0⟩, rotation := Quat.identity,
                      velocity := Vec3.zero,
                      ids := (fun i => IdMap.mk [(0, i + 100)]) 0 },
            kind := if (0 : ℕ) ≠ 1 then ActorKind.RemotePlayer
                    else ActorKind.Player }) : ℕ × PlayerDescriptor)
      ∈ Server.on_scene_loaded 2 [⟨0, 0, 0⟩, ⟨1, 0, 0⟩] false
          (fun i => IdMap.mk [(0, i + 100)]) (fun _ => IdMap.mk [])) :=
  ⟨by decide, by decide, rfl,
   server_spawn_role_and_shared_ids 2 [⟨0, 0, 0⟩, ⟨1, 0, 0⟩] false
     (fun i => IdMap.mk [(0, i + 100)]) (fun _ => IdMap.mk []) 0 1
     ⟨0, 0, 0⟩ (by decide) (by decide) rfl⟩

/-- C8. On `EndMatch` with a loaded scene whose leaderboard actors all
resolve, `Client::read_messages` installs a win context built from the
current leaderboard entries sorted by finishing place with its timer set to
exactly 10 seconds, makes the menu visible when a menu exists, and removes
the local scene (the scene handle becomes none); and `Client::update`
decrements the win-context timer by `dt`, clearing the context exactly when
the timer reaches or passes zero. -/
theorem client_end_match_win_context (ctx : ClientCtx) (s : SceneM)
    (players : List FinishedPlayer) (wc : WinContext) (dt : ℚ)
    (hs : ctx.scene = some s)
    (hp : collectFinishedPlayers s ctx.leaderboard = Except.ok players) :
    Client.read_messages ctx [ServerMessageM.EndMatch] =
      Except.ok { ctx with
        winContext := some
          { timer := 10,
            players := players.insertionSort (fun a b => a.place ≤ b.place) },
        menuShown := if ctx.menuPresent then true else ctx.menuShown,
        scene := none } ∧
    Client.update (some wc) dt =
      (if wc.timer - dt ≤ 0 then none
       else some { wc with timer := wc.timer - dt }) := by
  constructor
  · have hpm : Client.processMessage ctx ServerMessageM.EndMatch =
        Except.ok { ctx with
          winContext := some
            { timer := 10,
              players :=
                players.insertionSort (fun a b => a.place ≤ b.place) },
          menuShown := if ctx.menuPresent then true else ctx.menuShown,
          scene := none } := by
      show (match ctx.scene with
          | none => Except.error GameError.sceneNotFound
          | some s =>
            (collectFinishedPlayers s ctx.leaderboard).map
              (fun (players : List FinishedPlayer) =>
                ({ ctx with
                   winContext := some
                     { timer := 10,
                       players := players.insertionSort
                         (fun a b => a.place ≤ b.place) },
                   menuShown := if ctx.menuPresent then true
                                else ctx.menuShown,
                   scene := none } : ClientCtx))) = _
      rw [hs]
      show (collectFinishedPlayers s ctx.leaderboard).map
          (fun (players : List FinishedPlayer) =>
            ({ ctx with
               winContext := some
                 { timer := 10,
                   players := players.insertionSort
                     (fun a b => a.place ≤ b.place) },
               menuShown := if ctx.menuPresent then true else ctx.menuShown,
               scene := none } : ClientCtx)) = _
      rw [hp]
      rfl
    unfold Client.read_messages
    rw [List.foldlM_cons, hpm]
    rfl
  · rfl

/-- Witness for C8: a leaderboard with actors 1 ("alice", place 2) and 2
("bob", place 1) in a scene that names both, and a 10-second win context
ticked by 4 seconds. -/
theorem client_end_match_win_context_witness :
    ctxEndMatch.scene = some sceneAliceBob ∧
    collectFinishedPlayers sceneAliceBob ctxEndMatch.leaderboard =
      Except.ok playersAliceBob ∧
    (Client.read_messages ctxEndMatch [ServerMessageM.EndMatch] =
      Except.ok { ctxEndMatch with
        winContext := some
          { timer := 10,
            players := playersAliceBob.insertionSort
              (fun a b => a.place ≤ b.place) },
        menuShown := if ctxEndMatch.menuPresent then true
                     else ctxEndMatch.menuShown,
        scene := none } ∧
    Client.update (some ⟨10, []⟩) 4 =
      (if (10 : ℚ) - 4 ≤ 0 then none
       else some { timer := (10 : ℚ) - 4,
                   players := ([] : List FinishedPlayer) })) :=
  ⟨rfl, rfl,
   client_end_match_win_context ctxEndMatch sceneAliceBob playersAliceBob
     ⟨10, []⟩ 4 rfl rfl⟩

/-- C6. When a complete frame is buffered (4 header bytes announcing a body
of `length` bytes, all present), `next_message` removes exactly the header
plus body (`4 + length` bytes) from the buffer front, in both the
parse-success and parse-failure cases (`tryCreate` is arbitrary): the
returned message is whatever the deserializer yields on the body (a failure
is `none`, i.e. dropped) and the retained buffer is the remaining bytes. -/
theorem netstream_complete_frame_consumed {M : Type}
    (tryCreate : List ℕ → Option M) (b0 b1 b2 b3 : ℕ) (rest : List ℕ)
    (hlen : b0 + 256 * b1 + 65536 * b2 + 16777216 * b3 ≤ rest.length) :
    nextMessage tryCreate (b0 :: b1 :: b2 :: b3 :: rest) =
      NextMessageResult.result
        (tryCreate
          (rest.take (b0 + 256 * b1 + 65536 * b2 + 16777216 * b3)))
        (rest.drop (b0 + 256 * b1 + 65536 * b2 + 16777216 * b3)) ∧
    rest.drop (b0 + 256 * b1 + 65536 * b2 + 16777216 * b3) =
      (b0 :: b1 :: b2 :: b3 :: rest).drop
        (4 + (b0 + 256 * b1 + 65536 * b2 + 16777216 * b3)) := by
  constructor
  · show (if rest.length < b0 + 256 * b1 + 65536 * b2 + 16777216 * b3 then
        NextMessageResult.panic
      else
        NextMessageResult.result
          (tryCreate
            (rest.take (b0 + 256 * b1 + 65536 * b2 + 16777216 * b3)))
          (rest.drop (b0 + 256 * b1 + 65536 * b2 + 16777216 * b3))) = _
    rw [if_neg (not_lt.mpr hlen)]
  · rw [Nat.add_comm 4]
    exact rfl

/-- Witness for C6: the buffer `[1,0,0,0,7,8]` holds a complete frame with a
1-byte body `[7]`; with a failing deserializer the message is dropped and
exactly 5 bytes are consumed, leaving `[8]`. -/
theorem netstream_complete_frame_consumed_witness :
    1 + 256 * 0 + 65536 * 0 + 16777216 * 0 ≤ ([7, 8] : List ℕ).length ∧
    (nextMessage (fun _ => (none : Option Unit)) [1, 0, 0, 0, 7, 8] =
        NextMessageResult.result
          ((fun _ => (none : Option Unit))
            (([7, 8] : List ℕ).take (1 + 256 * 0 + 65536 * 0 + 16777216 * 0)))
          (([7, 8] : List ℕ).drop (1 + 256 * 0 + 65536 * 0 + 16777216 * 0)) ∧
      ([7, 8] : List ℕ).drop (1 + 256 * 0 + 65536 * 0 + 16777216 * 0) =
        ([1, 0, 0, 0, 7, 8] : List ℕ).drop
          (4 + (1 + 256 * 0 + 65536 * 0 + 16777216 * 0))) :=
  ⟨by decide,
   netstream_complete_frame_consumed (fun _ => (none : Option Unit))
     1 0 0 0 [7, 8] (by decide)⟩
